import Mathlib

/-!
Shallow embedding of mgo-statsd (src/main.go): a service that periodically
samples a MongoDB `serverStatus` document and republishes selected fields as
statsd gauges.  External effects (the mgo session and the statsd client) are
made explicit through oracle structures recording what each network call
would return, and every function additionally returns the observable trace
(gauge calls attempted, session operations performed, stdout lines).
-/

set_option maxRecDepth 8000
set_option maxHeartbeats 1000000

namespace MgoStatsd

/-- Connections section of the server status document (src/main.go, `type Connections`). -/
structure Connections where
  Current : Int
  Available : Int
  TotalCreated : Int
  deriving DecidableEq

/-- Mem section of the server status document (src/main.go, `type Mem`). -/
structure Mem where
  Resident : Int
  Virtual : Int
  Mapped : Int
  MappedWithJournal : Int
  deriving DecidableEq

/-- Reader/writer/total triple (src/main.go, `type RWT`). -/
structure RWT where
  Readers : Int
  Writers : Int
  Total : Int
  deriving DecidableEq

/-- GlobalLock section of the server status document (src/main.go, `type GlobalLock`). -/
structure GlobalLock where
  TotalTime : Int
  LockTime : Int
  CurrentQueue : RWT
  ActiveClients : RWT
  deriving DecidableEq

/-- Opcounters section of the server status document (src/main.go, `type Opcounters`). -/
structure Opcounters where
  Insert : Int
  Query : Int
  Update : Int
  Delete : Int
  GetMore : Int
  Command : Int
  deriving DecidableEq

/-- ExtraInfo section of the server status document (src/main.go, `type ExtraInfo`). -/
structure ExtraInfo where
  PageFaults : Int
  HeapUsageInBytes : Int
  deriving DecidableEq

/-- The decoded `serverStatus` reply (src/main.go, `type ServerStatus`).
`LocalTime` (a bson timestamp in the source) is modelled as an integer. -/
structure ServerStatus where
  Host : String
  Version : String
  Process : String
  Pid : Int
  Uptime : Int
  UptimeInMillis : Int
  UptimeEstimate : Int
  LocalTime : Int
  Connections : MgoStatsd.Connections
  ExtraInfo : MgoStatsd.ExtraInfo
  Mem : MgoStatsd.Mem
  GlobalLocks : MgoStatsd.GlobalLock
  Opcounters : MgoStatsd.Opcounters
  OpcountersReplicaSet : MgoStatsd.Opcounters
  deriving DecidableEq

/-- Modelled from the spec: the Mongo connection parameters produced by the
configuration loader (`LoadConfig`, not under src/): an ordered address list
and an optional username/password pair (spec section 6). -/
structure Mongo where
  Addresses : List String
  User : String
  Pass : String
  deriving DecidableEq

/-- Modelled from the spec: the statsd parameters produced by the configuration
loader (`LoadConfig`, not under src/): host, port, environment and cluster
identifiers (spec section 6). -/
structure Statsd where
  Host : String
  Port : Int
  Env : String
  Cluster : String
  deriving DecidableEq

/-- Modelled from the spec: the validated configuration object handed to the
core (`LoadConfig`, not under src/): interval plus Mongo and Statsd parameters
(spec section 6).  The interval is an abstract duration in milliseconds. -/
structure Config where
  Interval : Nat
  Mongo : MgoStatsd.Mongo
  Statsd : MgoStatsd.Statsd

/-- Oracle for the statsd transport: what `statsd.NewClient` returns for this
cycle, and what the n-th `Gauge` call on the created client returns
(`none` is a nil error, `some e` a failure carrying message `e`). -/
structure World where
  newClientErr : Option String
  gaugeErr : Nat → Option String

/-- State of one statsd client: its gauge-result oracle, the number of gauge
calls made so far, and the log of gauge calls attempted (metric name relative
to the namespace, and the int64 value sent). -/
structure SinkState where
  gaugeErr : Nat → Option String
  count : Nat
  log : List (String × Int)

/-- One `client.Gauge(name, value, 1.0)` call: the call is attempted (logged)
and returns whatever error the oracle assigns to this call position. -/
def Gauge (client : SinkState) (name : String) (value : Int) : SinkState × Option String :=
  ({ gaugeErr := client.gaugeErr, count := client.count + 1,
     log := client.log ++ [(name, value)] },
   client.gaugeErr client.count)

/-- The Go early-return idiom `err = ...; if err != nil { return err }`:
run the next step only when the previous call returned a nil error. -/
def andThen (step : SinkState × Option String) (rest : SinkState → SinkState × Option String) :
    SinkState × Option String :=
  match step with
  | (client, some e) => (client, some e)
  | (client, none) => rest client

/-- src/main.go `pushConnections`: gauges connections.current, connections.available,
connections.created, returning at the first error. -/
def pushConnections (client : SinkState) (connections : MgoStatsd.Connections) :
    SinkState × Option String :=
  andThen (Gauge client "connections.current" connections.Current) fun client =>
  andThen (Gauge client "connections.available" connections.Available) fun client =>
  andThen (Gauge client "connections.created" connections.TotalCreated) fun client =>
  (client, none)

/-- src/main.go `pushOpcounters`: gauges the six non-replica-set op counters,
returning at the first error. -/
def pushOpcounters (client : SinkState) (opscounters : MgoStatsd.Opcounters) :
    SinkState × Option String :=
  andThen (Gauge client "ops.inserts" opscounters.Insert) fun client =>
  andThen (Gauge client "ops.queries" opscounters.Query) fun client =>
  andThen (Gauge client "ops.updates" opscounters.Update) fun client =>
  andThen (Gauge client "ops.deletes" opscounters.Delete) fun client =>
  andThen (Gauge client "ops.getmores" opscounters.GetMore) fun client =>
  andThen (Gauge client "ops.commands" opscounters.Command) fun client =>
  (client, none)

/-- src/main.go `pushMem`: gauges the four memory fields, returning at the
first error. -/
def pushMem (client : SinkState) (mem : MgoStatsd.Mem) : SinkState × Option String :=
  andThen (Gauge client "mem.resident" mem.Resident) fun client =>
  andThen (Gauge client "mem.virtual" mem.Virtual) fun client =>
  andThen (Gauge client "mem.mapped" mem.Mapped) fun client =>
  andThen (Gauge client "mem.mapped_with_journal" mem.MappedWithJournal) fun client =>
  (client, none)

/-- src/main.go `pushGlobalLocks`: gauges the eight global-lock fields,
returning at the first error. -/
def pushGlobalLocks (client : SinkState) (glob : MgoStatsd.GlobalLock) :
    SinkState × Option String :=
  andThen (Gauge client "global_lock.total_time" glob.TotalTime) fun client =>
  andThen (Gauge client "global_lock.lock_time" glob.LockTime) fun client =>
  andThen (Gauge client "global_lock.active_readers" glob.ActiveClients.Readers) fun client =>
  andThen (Gauge client "global_lock.active_writers" glob.ActiveClients.Writers) fun client =>
  andThen (Gauge client "global_lock.active_total" glob.ActiveClients.Total) fun client =>
  andThen (Gauge client "global_lock.queued_readers" glob.CurrentQueue.Readers) fun client =>
  andThen (Gauge client "global_lock.queued_writers" glob.CurrentQueue.Writers) fun client =>
  andThen (Gauge client "global_lock.queued_total" glob.CurrentQueue.Total) fun client =>
  (client, none)

/-- src/main.go `pushExtraInfo`: gauges extra.page_faults and extra.heap_usage,
returning at the first error. -/
def pushExtraInfo (client : SinkState) (info : MgoStatsd.ExtraInfo) :
    SinkState × Option String :=
  andThen (Gauge client "extra.page_faults" info.PageFaults) fun client =>
  andThen (Gauge client "extra.heap_usage" info.HeapUsageInBytes) fun client =>
  (client, none)

/-- Observable result of one `pushStats` call: the namespace given to
`statsd.NewClient`, the `host:port` it was dialled with, the gauge calls
attempted, and the returned error. -/
structure PushResult where
  pfx : String
  host_port : String
  log : List (String × Int)
  err : Option String
  deriving DecidableEq

/-- src/main.go `pushStats`: builds the namespace from env, optional cluster and
the snapshot's host, creates a statsd client, then pushes the five groups in
order, returning at the first error. -/
def pushStats (w : World) (statsd_config : Statsd) (status : MgoStatsd.ServerStatus) :
    PushResult :=
  let pfx := statsd_config.Env
  let pfx := if statsd_config.Cluster.length > 0 then pfx ++ "." ++ statsd_config.Cluster else pfx
  let pfx := pfx ++ "." ++ status.Host
  let host_port := statsd_config.Host ++ ":" ++ toString statsd_config.Port
  match w.newClientErr with
  | some e => { pfx := pfx, host_port := host_port, log := [], err := some e }
  | none =>
    let client : SinkState := { gaugeErr := w.gaugeErr, count := 0, log := [] }
    let r :=
      andThen (pushConnections client status.Connections) fun client =>
      andThen (pushOpcounters client status.Opcounters) fun client =>
      andThen (pushMem client status.Mem) fun client =>
      andThen (pushGlobalLocks client status.GlobalLocks) fun client =>
      pushExtraInfo client status.ExtraInfo
    { pfx := pfx, host_port := host_port, log := r.1.log, err := r.2 }

/-- A World in which client construction and every gauge transmission succeed. -/
def allOk : World :=
  { newClientErr := none, gaugeErr := fun _ => none }

/-- Oracle for the mgo transport during one `serverStatus` call: what
`DialWithInfo`, `Login` and `Run` return, and the decoded reply on success. -/
structure MongoWorld where
  dialErr : Option String
  loginErr : Option String
  queryErr : Option String
  queryResult : MgoStatsd.ServerStatus

/-- Operations performed on the mgo session by `serverStatus`. -/
inductive MongoOp where
  | dial : MongoOp
  | login : String → String → MongoOp
  | setMode : MongoOp
  | runCmd : String → MongoOp
  | close : MongoOp
  deriving DecidableEq

/-- Result of a computation that either returns a value or panics, terminating
the process (Go `panic`). -/
inductive Outcome (α : Type) where
  | ok : α → Outcome α
  | panicked : String → Outcome α
  deriving DecidableEq

/-- Whether a session operation is a `Login` call. -/
def isLogin : MongoOp → Bool
  | MongoOp.login _ _ => true
  | _ => false

/-- src/main.go `serverStatus`: dials the configured addresses, logs in only when
the configured username is non-empty, switches the session to monotonic mode and
runs the `serverStatus` command; every error panics.  Returns the trace of
session operations (the deferred `Close` runs on the panic paths after a
successful dial) together with the outcome. -/
def serverStatus (w : MongoWorld) (mongo_config : Mongo) :
    List MongoOp × Outcome MgoStatsd.ServerStatus :=
  match w.dialErr with
  | some e => ([MongoOp.dial], Outcome.panicked e)
  | none =>
    if mongo_config.User.length > 0 then
      match w.loginErr with
      | some e =>
        ([MongoOp.dial, MongoOp.login mongo_config.User mongo_config.Pass, MongoOp.close],
         Outcome.panicked e)
      | none =>
        match w.queryErr with
        | some e =>
          ([MongoOp.dial, MongoOp.login mongo_config.User mongo_config.Pass, MongoOp.setMode,
            MongoOp.runCmd "serverStatus", MongoOp.close],
           Outcome.panicked e)
        | none =>
          ([MongoOp.dial, MongoOp.login mongo_config.User mongo_config.Pass, MongoOp.setMode,
            MongoOp.runCmd "serverStatus", MongoOp.close],
           Outcome.ok w.queryResult)
    else
      match w.queryErr with
      | some e =>
        ([MongoOp.dial, MongoOp.setMode, MongoOp.runCmd "serverStatus", MongoOp.close],
         Outcome.panicked e)
      | none =>
        ([MongoOp.dial, MongoOp.setMode, MongoOp.runCmd "serverStatus", MongoOp.close],
         Outcome.ok w.queryResult)

/-- Stdout lines produced by the tick handler for a cycle result
(src/main.go main: `if err != nil { fmt.Println(err) }`). -/
def cycleLog (err : Option String) : List String :=
  match err with
  | some e => [e]
  | none => []

/-- One sampling-and-forwarding cycle as run by the ticker goroutine:
`pushStats(config.Statsd, serverStatus(config.Mongo))` followed by logging a
non-nil error.  A panic inside `serverStatus` propagates and terminates the
process. -/
def runCycle (mw : MongoWorld) (w : World) (config : Config) : Outcome (List String) :=
  match (serverStatus mw config.Mongo).2 with
  | Outcome.panicked e => Outcome.panicked e
  | Outcome.ok status => Outcome.ok (cycleLog (pushStats w config.Statsd status).err)

/-- Events consumed by the ticker goroutine's select loop: either a timer tick
(carrying the external conditions of that cycle) or the closing of the quit
channel. -/
inductive LoopEvent where
  | tick : MongoWorld → World → LoopEvent
  | quitEv : LoopEvent

/-- Observable outcome of the ticker goroutine on a sequence of events: stdout
lines printed, number of cycles started, whether `ticker.Stop` ran, and the
panic that terminated the process, if any. -/
structure LoopResult where
  output : List String
  cyclesRun : Nat
  tickerStopped : Bool
  panicked : Option String
  deriving DecidableEq

/-- src/main.go main, ticker goroutine: the select loop, one event at a time.
A tick runs one cycle (a panic terminates the process); the quit event stops
the ticker and returns, so no later event is processed. -/
def schedulerLoop (config : Config) : List LoopEvent → LoopResult
  | [] => { output := [], cyclesRun := 0, tickerStopped := false, panicked := none }
  | LoopEvent.quitEv :: _ =>
    { output := [], cyclesRun := 0, tickerStopped := true, panicked := none }
  | LoopEvent.tick mw w :: rest =>
    match runCycle mw w config with
    | Outcome.panicked e =>
      { output := [], cyclesRun := 1, tickerStopped := false, panicked := some e }
    | Outcome.ok out =>
      let r := schedulerLoop config rest
      { output := out ++ r.output, cyclesRun := 1 + r.cyclesRun,
        tickerStopped := r.tickerStopped, panicked := r.panicked }

/-- Signals the process subscribes to (src/main.go main: `signal.Notify`). -/
inductive Signal where
  | SIGINT : Signal
  | SIGTERM : Signal
  | SIGQUIT : Signal
  deriving DecidableEq

/-- Go's `syscall.Signal.String()` for the three subscribed signals. -/
def sigString : Signal → String
  | Signal.SIGINT => "interrupt"
  | Signal.SIGTERM => "terminated"
  | Signal.SIGQUIT => "quit"

/-- The list of signals passed to `signal.Notify`. -/
def notifiedSignals : List Signal :=
  [Signal.SIGINT, Signal.SIGTERM, Signal.SIGQUIT]

/-- src/main.go main: the line printed to stdout when a subscribed signal is
received (`fmt.Println("Received " + sig.String())`), after which the quit
channel is closed. -/
def mainSignalLine (sig : Signal) : String :=
  "Received " ++ sigString sig

/-- Sample snapshot used by concrete witnesses. -/
def sEx : MgoStatsd.ServerStatus :=
  { Host := "db1", Version := "3.2.0", Process := "mongod", Pid := 4242,
    Uptime := 1000, UptimeInMillis := 1000000, UptimeEstimate := 990, LocalTime := 77,
    Connections := { Current := 11, Available := -5, TotalCreated := 900 },
    ExtraInfo := { PageFaults := 17, HeapUsageInBytes := 123456 },
    Mem := { Resident := 512, Virtual := 2048, Mapped := 256, MappedWithJournal := 300 },
    GlobalLocks :=
      { TotalTime := 999999, LockTime := 1234,
        CurrentQueue := { Readers := 1, Writers := 2, Total := 3 },
        ActiveClients := { Readers := 4, Writers := 5, Total := 9 } },
    Opcounters :=
      { Insert := 10, Query := 20, Update := 30, Delete := 40, GetMore := 50, Command := 60 },
    OpcountersReplicaSet :=
      { Insert := 1, Query := 2, Update := 3, Delete := 4, GetMore := 5, Command := 6 } }

/-- Sample statsd configuration used by concrete witnesses. -/
def cfgStatsdEx : Statsd :=
  { Host := "statsd.local", Port := 8125, Env := "prod", Cluster := "shardA" }

/-- Sample Mongo configuration used by concrete witnesses. -/
def cfgMongoEx : Mongo :=
  { Addresses := ["mongo1:27017"], User := "admin", Pass := "hunter2" }

/-- Sample full configuration used by concrete witnesses. -/
def cfgEx : Config :=
  { Interval := 10000, Mongo := cfgMongoEx, Statsd := cfgStatsdEx }

/-- Mongo oracle in which dial, login and the status query all succeed. -/
def mwOk : MongoWorld :=
  { dialErr := none, loginErr := none, queryErr := none, queryResult := sEx }

/-- Mongo oracle in which the dial fails. -/
def mwBad : MongoWorld :=
  { dialErr := some "connection refused", loginErr := none, queryErr := none,
    queryResult := sEx }

/-- Statsd oracle in which the very first gauge transmission fails. -/
def wGaugeFail : World :=
  { newClientErr := none,
    gaugeErr := fun n => if n = 0 then some "gauge send failed" else none }

/-- Statsd oracle in which the third gauge transmission (call index 2) fails. -/
def wThirdFail : World :=
  { newClientErr := none,
    gaugeErr := fun n => if n = 2 then some "write: connection refused" else none }

/-- A second all-successful statsd oracle, standing for a later cycle. -/
def wOkAlt : World :=
  { newClientErr := none, gaugeErr := fun _ => none }

/-- Statsd oracle in which `statsd.NewClient` itself fails. -/
def wNoClient : World :=
  { newClientErr := some "resolve statsd.local: no such host", gaugeErr := fun _ => none }

end MgoStatsd

open MgoStatsd

/-- Helper: a string of length zero is the empty string. -/
theorem eq_empty_of_length_eq_zero (t : String) (h : t.length = 0) : t = "" := by
  cases t with
  | mk data =>
    simp [String.length] at h
    simp [h]

/-- Helper: a fully successful `pushStats` call, in closed form — the namespace
handed to the client, the `host:port` it dials, the 23 gauge calls in program
order with their values, and a nil returned error. -/
theorem pushStats_allOk_eq (cfg : Statsd) (s : ServerStatus) :
    pushStats allOk cfg s =
    { pfx := (if cfg.Cluster.length > 0 then cfg.Env ++ "." ++ cfg.Cluster else cfg.Env)
        ++ "." ++ s.Host,
      host_port := cfg.Host ++ ":" ++ toString cfg.Port,
      log := [
      ("connections.current", s.Connections.Current),
      ("connections.available", s.Connections.Available),
      ("connections.created", s.Connections.TotalCreated),
      ("ops.inserts", s.Opcounters.Insert),
      ("ops.queries", s.Opcounters.Query),
      ("ops.updates", s.Opcounters.Update),
      ("ops.deletes", s.Opcounters.Delete),
      ("ops.getmores", s.Opcounters.GetMore),
      ("ops.commands", s.Opcounters.Command),
      ("mem.resident", s.Mem.Resident),
      ("mem.virtual", s.Mem.Virtual),
      ("mem.mapped", s.Mem.Mapped),
      ("mem.mapped_with_journal", s.Mem.MappedWithJournal),
      ("global_lock.total_time", s.GlobalLocks.TotalTime),
      ("global_lock.lock_time", s.GlobalLocks.LockTime),
      ("global_lock.active_readers", s.GlobalLocks.ActiveClients.Readers),
      ("global_lock.active_writers", s.GlobalLocks.ActiveClients.Writers),
      ("global_lock.active_total", s.GlobalLocks.ActiveClients.Total),
      ("global_lock.queued_readers", s.GlobalLocks.CurrentQueue.Readers),
      ("global_lock.queued_writers", s.GlobalLocks.CurrentQueue.Writers),
      ("global_lock.queued_total", s.GlobalLocks.CurrentQueue.Total),
      ("extra.page_faults", s.ExtraInfo.PageFaults),
      ("extra.heap_usage", s.ExtraInfo.HeapUsageInBytes)],
      err := none } := by
  simp [pushStats, pushConnections, pushOpcounters, pushMem, pushGlobalLocks,
    pushExtraInfo, andThen, Gauge, allOk]

/-- Helper: a `pushStats` call in which client construction and every gauge
transmission succeed produces the same result as under the canonical
all-successful oracle — the outcome depends only on the configuration and the
snapshot. -/
theorem pushStats_ok_independent (w : World) (cfg : Statsd) (s : ServerStatus)
    (h1 : w.newClientErr = none) (h2 : ∀ n, w.gaugeErr n = none) :
    pushStats w cfg s = pushStats allOk cfg s := by
  rw [pushStats_allOk_eq]
  simp [pushStats, pushConnections, pushOpcounters, pushMem, pushGlobalLocks,
    pushExtraInfo, andThen, Gauge, h1, h2]

/-- Helper: events arriving after the quit event never change the loop's
outcome — once quit is consumed the goroutine has returned. -/
theorem schedulerLoop_quit_absorb (cfg : Config) (post : List LoopEvent) :
    ∀ pre : List LoopEvent,
      schedulerLoop cfg (pre ++ LoopEvent.quitEv :: post) =
        schedulerLoop cfg (pre ++ [LoopEvent.quitEv])
  | [] => rfl
  | LoopEvent.quitEv :: _ => rfl
  | LoopEvent.tick mw w :: pre => by
    simp only [List.cons_append, schedulerLoop]
    cases hr : runCycle mw w cfg <;> simp [schedulerLoop_quit_absorb cfg post pre]

/-- C1 counterexample: a fully successful publish cycle emits 23 gauge
updates, not 20 — the section 4.3 table lists 23 metric names. -/
theorem c1_counterexample_not_twenty :
    (pushStats allOk cfgStatsdEx sEx).err = none ∧
      (pushStats allOk cfgStatsdEx sEx).log.length = 23 ∧
      ¬ (pushStats allOk cfgStatsdEx sEx).log.length = 20 := by
  decide

/-- C1 (amended): for every valid StatusSnapshot, a fully successful publish
cycle emits exactly the 23 metric names listed in the section 4.3 table, each
exactly once, the value sent for each metric name equals the corresponding
snapshot field as an int64, and no other metric names are emitted. -/
theorem c1_publish_emits_exactly_table_metrics (cfg : Statsd) (s : ServerStatus) :
    (pushStats allOk cfg s).log = [
      ("connections.current", s.Connections.Current),
      ("connections.available", s.Connections.Available),
      ("connections.created", s.Connections.TotalCreated),
      ("ops.inserts", s.Opcounters.Insert),
      ("ops.queries", s.Opcounters.Query),
      ("ops.updates", s.Opcounters.Update),
      ("ops.deletes", s.Opcounters.Delete),
      ("ops.getmores", s.Opcounters.GetMore),
      ("ops.commands", s.Opcounters.Command),
      ("mem.resident", s.Mem.Resident),
      ("mem.virtual", s.Mem.Virtual),
      ("mem.mapped", s.Mem.Mapped),
      ("mem.mapped_with_journal", s.Mem.MappedWithJournal),
      ("global_lock.total_time", s.GlobalLocks.TotalTime),
      ("global_lock.lock_time", s.GlobalLocks.LockTime),
      ("global_lock.active_readers", s.GlobalLocks.ActiveClients.Readers),
      ("global_lock.active_writers", s.GlobalLocks.ActiveClients.Writers),
      ("global_lock.active_total", s.GlobalLocks.ActiveClients.Total),
      ("global_lock.queued_readers", s.GlobalLocks.CurrentQueue.Readers),
      ("global_lock.queued_writers", s.GlobalLocks.CurrentQueue.Writers),
      ("global_lock.queued_total", s.GlobalLocks.CurrentQueue.Total),
      ("extra.page_faults", s.ExtraInfo.PageFaults),
      ("extra.heap_usage", s.ExtraInfo.HeapUsageInBytes)] ∧
    ((pushStats allOk cfg s).log.map Prod.fst).Nodup ∧
    (pushStats allOk cfg s).err = none := by
  refine ⟨?_, ?_, ?_⟩ <;> simp [pushStats_allOk_eq]

/-- C2: the code contradicts the claimed propagation policy — a status-retrieval
failure (here a failed dial) panics inside `serverStatus` and terminates the
process, so the already-scheduled next tick never runs a cycle; by contrast a
metrics-transmission failure is logged and the next tick does run. -/
theorem c2_dial_failure_crashes_scheduler :
    schedulerLoop cfgEx [LoopEvent.tick mwBad allOk, LoopEvent.tick mwOk allOk] =
      { output := [], cyclesRun := 1, tickerStopped := false,
        panicked := some "connection refused" } ∧
    schedulerLoop cfgEx [LoopEvent.tick mwOk wGaugeFail, LoopEvent.tick mwOk allOk] =
      { output := ["gauge send failed"], cyclesRun := 2, tickerStopped := false,
        panicked := none } := by
  decide

/-- C3: if the gauge transmission at call index i fails (all earlier ones
having succeeded), the calls attempted are exactly the first i+1 of the
successful cycle's sequence — the failing call is the last attempted, nothing
already sent is rolled back, no later gauge of the cycle is attempted — and
the sink's error is returned to the scheduler loop, which logs it. -/
theorem c3_gauge_failure_short_circuit (w : World) (cfg : Statsd) (s : ServerStatus)
    (i : Nat) (e : String)
    (hnc : w.newClientErr = none) (hpre : ∀ j, j < i → w.gaugeErr j = none)
    (hf : w.gaugeErr i = some e) (hi : i < 23) :
    (pushStats w cfg s).log = ((pushStats allOk cfg s).log).take (i + 1) ∧
      (pushStats w cfg s).err = some e ∧
      cycleLog (pushStats w cfg s).err = [e] := by
  rw [pushStats_allOk_eq]
  interval_cases i <;>
    simp [pushStats, pushConnections, pushOpcounters, pushMem, pushGlobalLocks,
      pushExtraInfo, andThen, Gauge, cycleLog, hnc, hf, hpre]

/-- C3 witness: with the third gauge call (index 2) failing, only the three
connections gauges are attempted and the error is returned and logged. -/
theorem c3_gauge_failure_short_circuit_witness :
    (pushStats wThirdFail cfgStatsdEx sEx).log =
        ((pushStats allOk cfgStatsdEx sEx).log).take (2 + 1) ∧
      (pushStats wThirdFail cfgStatsdEx sEx).err = some "write: connection refused" ∧
      cycleLog (pushStats wThirdFail cfgStatsdEx sEx).err = ["write: connection refused"] :=
  c3_gauge_failure_short_circuit wThirdFail cfgStatsdEx sEx 2 "write: connection refused"
    rfl (by decide) rfl (by decide)

/-- C4: the namespace prefix handed to the statsd client is
environment.cluster.host when the configured cluster is non-empty and
environment.host when it is empty, the host segment being the snapshot's
host field. -/
theorem c4_namespace_prefix (w : World) (cfg : Statsd) (s : ServerStatus) :
    (pushStats w cfg s).pfx =
      if cfg.Cluster = "" then cfg.Env ++ "." ++ s.Host
      else cfg.Env ++ "." ++ cfg.Cluster ++ "." ++ s.Host := by
  by_cases hc : cfg.Cluster = ""
  · have hl : ¬ cfg.Cluster.length > 0 := by rw [hc]; simp
    cases hw : w.newClientErr <;> simp [pushStats, hw, hc, hl]
  · have hl : cfg.Cluster.length > 0 := by
      rcases Nat.eq_zero_or_pos cfg.Cluster.length with h0 | h0
      · exact absurd (eq_empty_of_length_eq_zero cfg.Cluster h0) hc
      · exact h0
    cases hw : w.newClientErr <;> simp [pushStats, hw, hc, hl]

/-- C5: in a fully successful cycle the gauge updates are emitted in the fixed
order connections, ops, mem, global_lock, extra, and within each group in the
section 4.3 table order. -/
theorem c5_publish_order (cfg : Statsd) (s : ServerStatus) :
    (pushStats allOk cfg s).log.map Prod.fst = [
      "connections.current", "connections.available", "connections.created",
      "ops.inserts", "ops.queries", "ops.updates", "ops.deletes",
      "ops.getmores", "ops.commands",
      "mem.resident", "mem.virtual", "mem.mapped", "mem.mapped_with_journal",
      "global_lock.total_time", "global_lock.lock_time",
      "global_lock.active_readers", "global_lock.active_writers",
      "global_lock.active_total",
      "global_lock.queued_readers", "global_lock.queued_writers",
      "global_lock.queued_total",
      "extra.page_faults", "extra.heap_usage"] := by
  simp [pushStats_allOk_eq]

/-- C6: for each of the three subscribed termination signals, the line
`Received ` followed by the signal's name is printed to stdout; once the quit
event reaches the select loop, the ticker is stopped, the loop returns with no
cycle run, and any events after the quit event never start a cycle — the
shutdown path is the same for all three signals. -/
theorem c6_shutdown_signals (sig : Signal) (_h : sig ∈ notifiedSignals)
    (cfg : Config) (pre post : List LoopEvent) :
    mainSignalLine sig = "Received " ++ sigString sig ∧
      schedulerLoop cfg (LoopEvent.quitEv :: post) =
        { output := [], cyclesRun := 0, tickerStopped := true, panicked := none } ∧
      schedulerLoop cfg (pre ++ LoopEvent.quitEv :: post) =
        schedulerLoop cfg (pre ++ [LoopEvent.quitEv]) :=
  ⟨rfl, rfl, schedulerLoop_quit_absorb cfg post pre⟩

/-- C6 witness: SIGTERM at a concrete configuration and event stream. -/
theorem c6_shutdown_signals_witness :
    mainSignalLine Signal.SIGTERM = "Received " ++ sigString Signal.SIGTERM ∧
      schedulerLoop cfgEx (LoopEvent.quitEv :: [LoopEvent.tick mwOk allOk]) =
        { output := [], cyclesRun := 0, tickerStopped := true, panicked := none } ∧
      schedulerLoop cfgEx
          ([LoopEvent.tick mwOk allOk] ++ LoopEvent.quitEv :: [LoopEvent.tick mwOk allOk]) =
        schedulerLoop cfgEx ([LoopEvent.tick mwOk allOk] ++ [LoopEvent.quitEv]) :=
  c6_shutdown_signals Signal.SIGTERM (by decide) cfgEx
    [LoopEvent.tick mwOk allOk] [LoopEvent.tick mwOk allOk]

/-- C7: once the dial succeeds, `serverStatus` performs a login if and only if
the configured username is non-empty — with an empty username no login
operation appears in the session trace at all, and with a non-empty username
the trace begins with the dial followed immediately by a login with the
configured username and password, so the login precedes any query. -/
theorem c7_auth_iff_nonempty_user (w : MongoWorld) (cfg : Mongo)
    (h : w.dialErr = none) :
    (cfg.User.length = 0 →
      (serverStatus w cfg).1.all (fun op => ! MgoStatsd.isLogin op) = true) ∧
    (cfg.User.length > 0 → ∃ rest, (serverStatus w cfg).1 =
      [MongoOp.dial, MongoOp.login cfg.User cfg.Pass] ++ rest) := by
  constructor
  · intro hu
    cases hq : w.queryErr <;> simp [serverStatus, h, hu, hq, isLogin]
  · intro hu
    cases hl : w.loginErr with
    | some e => exact ⟨[MongoOp.close], by simp [serverStatus, h, hu, hl]⟩
    | none =>
      cases hq : w.queryErr with
      | some e =>
        exact ⟨[MongoOp.setMode, MongoOp.runCmd "serverStatus", MongoOp.close],
          by simp [serverStatus, h, hu, hl, hq]⟩
      | none =>
        exact ⟨[MongoOp.setMode, MongoOp.runCmd "serverStatus", MongoOp.close],
          by simp [serverStatus, h, hu, hl, hq]⟩

/-- C7 witness: a successful dial with the sample credentials (non-empty
username). -/
theorem c7_auth_iff_nonempty_user_witness :
    (cfgMongoEx.User.length = 0 →
      (serverStatus mwOk cfgMongoEx).1.all (fun op => ! MgoStatsd.isLogin op) = true) ∧
    (cfgMongoEx.User.length > 0 → ∃ rest, (serverStatus mwOk cfgMongoEx).1 =
      [MongoOp.dial, MongoOp.login cfgMongoEx.User cfgMongoEx.Pass] ++ rest) :=
  c7_auth_iff_nonempty_user mwOk cfgMongoEx rfl

/-- C8: for every snapshot — including ones whose Connections.available is
negative — the single gauge update named connections.available carries the raw
snapshot field value, with no clamping or other transformation. -/
theorem c8_available_passthrough (cfg : Statsd) (s : ServerStatus) :
    ((pushStats allOk cfg s).log.filter (fun p => p.fst == "connections.available")) =
      [("connections.available", s.Connections.Available)] := by
  simp [pushStats_allOk_eq]

/-- C9: publishing is a deterministic function of the configuration and the
snapshot — two fully successful publishes of the same snapshot under the same
configuration, in any two environments, produce identical results: same gauge
names, same values, same order, with no state carried between publishes. -/
theorem c9_publish_deterministic (w1 w2 : World) (cfg : Statsd) (s : ServerStatus)
    (h1 : w1.newClientErr = none) (h2 : ∀ n, w1.gaugeErr n = none)
    (h3 : w2.newClientErr = none) (h4 : ∀ n, w2.gaugeErr n = none) :
    pushStats w1 cfg s = pushStats w2 cfg s :=
  (pushStats_ok_independent w1 cfg s h1 h2).trans
    (pushStats_ok_independent w2 cfg s h3 h4).symm

/-- C9 witness: two successive successful cycles over the sample snapshot. -/
theorem c9_publish_deterministic_witness :
    pushStats allOk cfgStatsdEx sEx = pushStats wOkAlt cfgStatsdEx sEx :=
  c9_publish_deterministic allOk wOkAlt cfgStatsdEx sEx rfl (fun _ => rfl)
    rfl (fun _ => rfl)

/-- C10: if constructing the statsd client fails, `pushStats` returns that
error at once and no gauge call is attempted for the cycle. -/
theorem c10_newclient_failure_no_gauges (w : World) (cfg : Statsd)
    (s : ServerStatus) (e : String) (h : w.newClientErr = some e) :
    (pushStats w cfg s).log = [] ∧ (pushStats w cfg s).err = some e := by
  simp [pushStats, h]

/-- C10 witness: a concrete failed client construction. -/
theorem c10_newclient_failure_no_gauges_witness :
    (pushStats wNoClient cfgStatsdEx sEx).log = [] ∧
      (pushStats wNoClient cfgStatsdEx sEx).err =
        some "resolve statsd.local: no such host" :=
  c10_newclient_failure_no_gauges wNoClient cfgStatsdEx sEx
    "resolve statsd.local: no such host" rfl
